import Mathlib

/-!
Verification development for the SkyTracker frontend map engine.

The definitions below are a shallow embedding of the TypeScript sources:
* `frontend/src/store/mapStore.ts` (zustand store: selection, history,
  detail `Loadable` slots, batch of map states),
* `frontend/src/components/visuals/aircraftMap/AircraftTrackLayer.tsx`
  (track segmenter),
* `frontend/src/components/visuals/aircraftMap/AircraftMarkerLayer.tsx`
  (per-frame spherical forward projection of markers),
* `frontend/src/components/visuals/aircraftMap/AircraftMapFetcher.tsx`
  (area-fetch message handler, selection effect, detail fetch continuations),
* `frontend/src/workers/AircraftMapWorker.js` (worker message shapes).

Timestamps are modelled as rationals holding the value of
`new Date(s).valueOf() / 1000` (seconds); all store arithmetic on times in
the source happens on such parsed values.  Numeric map data (positions,
headings, velocities, altitudes) is rational in the executable store model
and real in the trigonometric projection model.
-/

namespace SkyTracker

/-- Aircraft snapshot as used for both the current batch (`mapStates`) and
history points: the `MapState` record of `types/api`, with the fields the
store and layers read (`time`, `callsign`, `position`, `heading`, `model`,
`altitude`, `velocity`). `time` holds the parsed timestamp in seconds. -/
structure MapState where
  time : ℚ
  callsign : String
  position : ℚ × ℚ
  heading : Option ℚ
  model : Option String
  altitude : Option ℚ
  velocity : Option ℚ
deriving DecidableEq, Repr

/-- Segment kinds of `AircraftTrackLayer.tsx` (`"normal" | "gap" | "current"`). -/
inductive SegmentType where
  | normal
  | gap
  | current
deriving DecidableEq, Repr

/-- The `TrackSegment` record of `AircraftTrackLayer.tsx`. -/
structure TrackSegment where
  startPos : ℚ × ℚ
  endPos : ℚ × ℚ
  startAlt : Option ℚ
  endAlt : Option ℚ
  startTime : ℚ
  endTime : ℚ
  type : SegmentType
deriving DecidableEq, Repr

/-- One iteration of the segment loop in `AircraftTrackLayer.tsx` (lines
56–71): from adjacent history entries `state1 = history[i]` (newer) and
`state2 = history[i+1]` (older), `dt = (t1 - t2)` in seconds and the kind is
`normal` iff `dt < 200`. -/
def mkTrackSegment (state1 state2 : MapState) : TrackSegment :=
  { startPos := state2.position
    endPos := state1.position
    startAlt := state2.altitude
    endAlt := state1.altitude
    startTime := state2.time
    endTime := state1.time
    type := if state1.time - state2.time < 200 then .normal else .gap }

/-- The segment loop of `AircraftTrackLayer.tsx`: one segment per adjacent
pair of the most-recent-first `history` list. -/
def trackSegments : List MapState → List TrackSegment
  | state1 :: state2 :: rest => mkTrackSegment state1 state2 :: trackSegments (state2 :: rest)
  | _ => []

/-- The `Loadable` tagged union (`{status: idle|loading|success|error}`) as
used throughout the store and fetcher sources (its declaration file
`types/api.ts` is not part of the sources; the constructors below are the
exact shapes the store writes: `{status:"idle"}`, `{status:"loading"}`,
`{status:"success", data}`, `{status:"error", error}`). -/
inductive Loadable (α : Type) where
  | idle
  | loading
  | success (data : α)
  | error (error : String)
deriving DecidableEq, Repr

/-- Nested `airport` slot of `SidebarDetails` (`departure` and `arrival`). -/
structure AirportDetails (Ap : Type) where
  departure : Loadable Ap
  arrival : Loadable Ap
deriving DecidableEq, Repr

/-- The `SidebarDetails` record of the store: one `Loadable` slot per detail
lookup.  The payload types (`State`, photo list, `Aircraft`, `Airport`,
`Airline` of `types/api`) are opaque to the store and kept as parameters. -/
structure SidebarDetails (St Ph Ac Ap Al : Type) where
  state : Loadable St
  photos : Loadable Ph
  aircraft : Loadable Ac
  airport : AirportDetails Ap
  airline : Loadable Al
deriving DecidableEq, Repr

/-- The `emptySidebarDetails` constant of `mapStore.ts`: every slot idle. -/
def emptySidebarDetails {St Ph Ac Ap Al : Type} : SidebarDetails St Ph Ac Ap Al :=
  { state := .idle
    photos := .idle
    aircraft := .idle
    airport := { departure := .idle, arrival := .idle }
    airline := .idle }

/-- Map style union of the store. -/
inductive MapStyle where
  | default
  | satellite
  | openStreetMap
deriving DecidableEq, Repr

/-- State of the zustand `useMapStore` (`mapStore.ts`).  The opaque Leaflet
`mapRef` handle is omitted (never read by the logic under verification). -/
structure MapStore (St Ph Ac Ap Al : Type) where
  selected : Option String
  lastHistoryUpdate : ℚ
  history : List MapState
  details : SidebarDetails St Ph Ac Ap Al
  animatedPosition : ℚ × ℚ
  mapStates : List MapState
  lastMapUpdate : ℚ
  mapStyle : MapStyle
  sidebarOpen : Bool
  animationZoomLimit : ℚ
deriving DecidableEq, Repr

variable {St Ph Ac Ap Al : Type}

/-- Store action `setSelected`. -/
def setSelected (callsign : Option String) (s : MapStore St Ph Ac Ap Al) :
    MapStore St Ph Ac Ap Al :=
  { s with selected := callsign }

/-- Store action `setLastHistoryUpdateString` (timestamp already parsed). -/
def setLastHistoryUpdateString (update : ℚ) (s : MapStore St Ph Ac Ap Al) :
    MapStore St Ph Ac Ap Al :=
  { s with lastHistoryUpdate := update }

/-- Store action `setHistory`. -/
def setHistory (history : List MapState) (s : MapStore St Ph Ac Ap Al) :
    MapStore St Ph Ac Ap Al :=
  { s with history := history }

/-- Store action `prependHistory` (`mapStore.ts` lines 89–97): scan the
current history for an entry with the same parsed timestamp; if one exists
return the history unchanged, otherwise cons the point on the front. -/
def prependHistory (point : MapState) (s : MapStore St Ph Ac Ap Al) :
    MapStore St Ph Ac Ap Al :=
  if s.history.any (fun state => state.time == point.time) then
    { s with history := s.history }
  else
    { s with history := point :: s.history }

/-- Store action `appendHistory` (same dedup scan, appends at the back). -/
def appendHistory (point : MapState) (s : MapStore St Ph Ac Ap Al) :
    MapStore St Ph Ac Ap Al :=
  if s.history.any (fun state => state.time == point.time) then
    { s with history := s.history }
  else
    { s with history := s.history ++ [point] }

/-- Store action `setDetailState`: spreads `store.details` replacing `state`. -/
def setDetailState (state : Loadable St) (s : MapStore St Ph Ac Ap Al) :
    MapStore St Ph Ac Ap Al :=
  { s with details := { s.details with state := state } }

/-- Store action `setDetailAircraft`. -/
def setDetailAircraft (aircraft : Loadable Ac) (s : MapStore St Ph Ac Ap Al) :
    MapStore St Ph Ac Ap Al :=
  { s with details := { s.details with aircraft := aircraft } }

/-- Store action `setDetailAirline`. -/
def setDetailAirline (airline : Loadable Al) (s : MapStore St Ph Ac Ap Al) :
    MapStore St Ph Ac Ap Al :=
  { s with details := { s.details with airline := airline } }

/-- Store action `setDetailDeparture`: spreads the nested `airport` object,
replacing only `departure`. -/
def setDetailDeparture (airport : Loadable Ap) (s : MapStore St Ph Ac Ap Al) :
    MapStore St Ph Ac Ap Al :=
  { s with details := { s.details with airport := { s.details.airport with departure := airport } } }

/-- Store action `setDetailArrival`. -/
def setDetailArrival (airport : Loadable Ap) (s : MapStore St Ph Ac Ap Al) :
    MapStore St Ph Ac Ap Al :=
  { s with details := { s.details with airport := { s.details.airport with arrival := airport } } }

/-- Store action `setDetailPhotos`. -/
def setDetailPhotos (photos : Loadable Ph) (s : MapStore St Ph Ac Ap Al) :
    MapStore St Ph Ac Ap Al :=
  { s with details := { s.details with photos := photos } }

/-- Store action `setDetailLoading`: every slot becomes `loading`. -/
def setDetailLoading (s : MapStore St Ph Ac Ap Al) : MapStore St Ph Ac Ap Al :=
  { s with details :=
    { state := .loading
      photos := .loading
      aircraft := .loading
      airport := { departure := .loading, arrival := .loading }
      airline := .loading } }

/-- Store action `setDetailError`: every slot becomes `error` with the
given message. -/
def setDetailError (error : String) (s : MapStore St Ph Ac Ap Al) :
    MapStore St Ph Ac Ap Al :=
  { s with details :=
    { state := .error error
      photos := .error error
      aircraft := .error error
      airport := { departure := .error error, arrival := .error error }
      airline := .error error } }

/-- Store action `setAnimatedPosition`. -/
def setAnimatedPosition (position : ℚ × ℚ) (s : MapStore St Ph Ac Ap Al) :
    MapStore St Ph Ac Ap Al :=
  { s with animatedPosition := position }

/-- Store action `resetSelected` (`mapStore.ts` line 120): empties history,
restores `emptySidebarDetails` (all slots idle) and zeroes the animated
position.  It touches nothing else. -/
def resetSelected (s : MapStore St Ph Ac Ap Al) : MapStore St Ph Ac Ap Al :=
  { s with history := [], details := emptySidebarDetails, animatedPosition := (0, 0) }

/-- Store action `setMapStates`. -/
def setMapStates (states : List MapState) (s : MapStore St Ph Ac Ap Al) :
    MapStore St Ph Ac Ap Al :=
  { s with mapStates := states }

/-- Store action `setLastMapUpdateString` (timestamp already parsed). -/
def setLastMapUpdateString (update : ℚ) (s : MapStore St Ph Ac Ap Al) :
    MapStore St Ph Ac Ap Al :=
  { s with lastMapUpdate := update }

/-! Detailed `State` record (`getLatestState` response), restricted to the
fields read by `AircraftMapFetcher.tsx`: `stateToMapState` and the dependent
lookup keys. -/

/-- The `geography` group of a detailed `State`. -/
structure StateGeography where
  position : ℚ × ℚ
  heading : Option ℚ
  baro_altitude : Option ℚ
  speed_horizontal : Option ℚ
deriving DecidableEq, Repr

/-- The `flight` group of a detailed `State`. -/
structure StateFlight where
  icao : String
deriving DecidableEq, Repr

/-- The `aircraft` group of a detailed `State` (lookup keys). -/
structure StateAircraft where
  registration : Option String
  icao : Option String
deriving DecidableEq, Repr

/-- The `airline` group of a detailed `State` (lookup key). -/
structure StateAirline where
  icao : Option String
deriving DecidableEq, Repr

/-- The `airport` group of a detailed `State` (lookup keys). -/
structure StateAirport where
  arrival_iata : Option String
  departure_iata : Option String
deriving DecidableEq, Repr

/-- Detailed state record returned by the latest-state query. -/
structure State where
  time : ℚ
  flight : StateFlight
  geography : StateGeography
  aircraft : StateAircraft
  airline : StateAirline
  airport : StateAirport
deriving DecidableEq, Repr

/-- The `stateToMapState` conversion of `AircraftMapFetcher.tsx` (lines 11–21). -/
def stateToMapState (state : State) : MapState :=
  { time := state.time
    callsign := state.flight.icao
    position := state.geography.position
    heading := state.geography.heading
    model := state.aircraft.icao
    altitude := state.geography.baro_altitude
    velocity := state.geography.speed_horizontal }

/-! Area-fetch worker protocol and message handler. -/

/-- Message posted by `AircraftMapWorker.js`: `{ data }` when
`getAreaStates` resolved (`data` may itself be a missing/null payload,
modelled by the inner `Option`), `{ error: err }` when it threw. -/
inductive WorkerMsg where
  | dataMsg (data : Option (List MapState))
  | errorMsg (error : String)
deriving DecidableEq, Repr

/-- The `handleFetch` worker-message handler of `AircraftMapFetcher.tsx`
(lines 78–91), as a partial state transformer: `none` models the handler
throwing before completing (the unguarded `aircraftStates[0].time` access on
an empty but truthy array), `some s` the store state after the handler ran
to completion.  On an error reply it returns without writing; on a truthy
`data.data` it sets `lastMapUpdate` from element 0 and then replaces
`mapStates` wholesale; on a null payload it replaces `mapStates` with `[]`. -/
def handleFetch (msg : WorkerMsg) (s : MapStore St Ph Ac Ap Al) :
    Option (MapStore St Ph Ac Ap Al) :=
  match msg with
  | .errorMsg _ => some s
  | .dataMsg none => some (setMapStates [] s)
  | .dataMsg (some aircraftStates) =>
    match aircraftStates with
    | [] => none
    | state0 :: _ =>
      some (setMapStates aircraftStates (setLastMapUpdateString state0.time s))

/-! Selection effect (`AircraftMapFetcher.tsx` lines 112–255).

The effect body is modelled as the trace of steps it performs, in program
order: named store mutations and outgoing fetch requests.  The async
continuations that run when responses arrive are modelled separately below,
each as a function of the `isCancelled` flag value it observes on resume. -/

/-- Named store mutations, used to report traces of writes. -/
inductive StoreAct (St Ph Ac Ap Al : Type) where
  | reset
  | detailLoading
  | lastHistoryUpdate (update : ℚ)
  | history (history : List MapState)
  | prependHist (point : MapState)
  | detailState (state : Loadable St)
  | detailAircraft (aircraft : Loadable Ac)
  | detailAirline (airline : Loadable Al)
  | detailDeparture (airport : Loadable Ap)
  | detailArrival (airport : Loadable Ap)
  | detailPhotos (photos : Loadable Ph)
  | detailError (error : String)
deriving DecidableEq

/-- Interpretation of a named store mutation as the store action it names. -/
def applyAct (act : StoreAct St Ph Ac Ap Al) (s : MapStore St Ph Ac Ap Al) :
    MapStore St Ph Ac Ap Al :=
  match act with
  | .reset => resetSelected s
  | .detailLoading => setDetailLoading s
  | .lastHistoryUpdate update => setLastHistoryUpdateString update s
  | .history history => setHistory history s
  | .prependHist point => prependHistory point s
  | .detailState state => setDetailState state s
  | .detailAircraft aircraft => setDetailAircraft aircraft s
  | .detailAirline airline => setDetailAirline airline s
  | .detailDeparture airport => setDetailDeparture airport s
  | .detailArrival airport => setDetailArrival airport s
  | .detailPhotos photos => setDetailPhotos photos s
  | .detailError error => setDetailError error s

/-- A step of the selection effect body: a store mutation or the issuing of
an asynchronous fetch for a callsign (history + latest-state requests). -/
inductive SelStep (St Ph Ac Ap Al : Type) where
  | act (act : StoreAct St Ph Ac Ap Al)
  | fetch (callsign : String)
deriving DecidableEq

/-- Synchronous body of the selection effect (`AircraftMapFetcher.tsx`
lines 112–118 and 233): it always calls `resetSelected()` first; when a
callsign is selected it then calls `setDetailLoading()` and starts
`fetchInitial()` (whose first act is issuing the history and latest-state
requests).  Nothing else runs before the first `await`. -/
def selectionEffect (selected : Option String) : List (SelStep St Ph Ac Ap Al) :=
  .act .reset ::
    (match selected with
     | none => []
     | some callsign => [.act .detailLoading, .fetch callsign])

/-! Continuations of the asynchronous fetches.  Each models the code that
runs when a response (or rejection) arrives, as a function of the value of
the effect closure's `isCancelled` flag at that moment; the result is the
list of store mutations the continuation performs.  The cleanup of the
effect sets `isCancelled := true` exactly when the selection epoch ends. -/

/-- JavaScript truthiness of an optional string (null/undefined and the
empty string are falsy). -/
def strFalsy (s : Option String) : Bool :=
  match s with
  | none => true
  | some str => str == ""

/-- Continuation after `Promise.all([getHistoryStates, getLatestState])`
resolves (lines 121–131): the cancellation check runs first; then
`history[0].time` is read with no emptiness guard (`none` models the throw
on an empty history response), then history is seeded and the state slot
set. -/
def onInitialData (cancelled : Bool) (history : List MapState) (latest : State) :
    Option (List (StoreAct State Ph Ac Ap Al)) :=
  if cancelled then some []
  else
    match history with
    | [] => none
    | point0 :: _ =>
      some [.lastHistoryUpdate point0.time, .history history,
            .detailState (.success latest)]

/-- Continuation of the aircraft-record lookup (lines 133–149): skipped with
an error write when the registration key is falsy; otherwise the promise
result (`some` data or `none` for a rejection) is written after the
cancellation check. -/
def onAircraftLookup (cancelled : Bool) (registration : Option String)
    (result : Option Ac) : List (StoreAct St Ph Ac Ap Al) :=
  if strFalsy registration then
    if cancelled then [] else [.detailAircraft (.error "Aircraft registration unknown")]
  else if cancelled then []
  else
    match result with
    | some data => [.detailAircraft (.success data)]
    | none => [.detailAircraft (.error "Aircraft not found")]

/-- Continuation of the airline lookup (lines 152–168). -/
def onAirlineLookup (cancelled : Bool) (icao : Option String)
    (result : Option Al) : List (StoreAct St Ph Ac Ap Al) :=
  if strFalsy icao then
    if cancelled then [] else [.detailAirline (.error "Airline ICAO code unknown")]
  else if cancelled then []
  else
    match result with
    | some data => [.detailAirline (.success data)]
    | none => [.detailAirline (.error "Airline not found")]

/-- Continuation of the arrival-airport lookup (lines 171–187). -/
def onArrivalLookup (cancelled : Bool) (iata : Option String)
    (result : Option Ap) : List (StoreAct St Ph Ac Ap Al) :=
  if strFalsy iata then
    if cancelled then [] else [.detailArrival (.error "Arrival airport IATA code unknown")]
  else if cancelled then []
  else
    match result with
    | some data => [.detailArrival (.success data)]
    | none => [.detailArrival (.error "Arrival airport not found")]

/-- Continuation of the departure-airport lookup (lines 190–206). -/
def onDepartureLookup (cancelled : Bool) (iata : Option String)
    (result : Option Ap) : List (StoreAct St Ph Ac Ap Al) :=
  if strFalsy iata then
    if cancelled then [] else [.detailDeparture (.error "Departure airport IATA code unknown")]
  else if cancelled then []
  else
    match result with
    | some data => [.detailDeparture (.success data)]
    | none => [.detailDeparture (.error "Departure airport not found")]

/-- Continuation of the photos lookup (lines 209–225). -/
def onPhotosLookup (cancelled : Bool) (registration : Option String)
    (result : Option Ph) : List (StoreAct St Ph Ac Ap Al) :=
  if strFalsy registration then
    if cancelled then [] else [.detailPhotos (.error "Aircraft registration unknown")]
  else if cancelled then []
  else
    match result with
    | some data => [.detailPhotos (.success data)]
    | none => [.detailPhotos (.error "Aircraft photos not found")]

/-- Catch handler of `fetchInitial` (lines 228–231). -/
def onInitialError (cancelled : Bool) : List (StoreAct St Ph Ac Ap Al) :=
  if cancelled then [] else [.detailError "Could not get history data"]

/-- Continuation of the periodic `fetchLatestState` (lines 236–247): on a
resolved latest state (`some`) the cancellation check precedes the three
writes; on a rejection (`none`) the catch performs no write at all. -/
def onLatestState (cancelled : Bool) (result : Option State) :
    List (StoreAct State Ph Ac Ap Al) :=
  match result with
  | some latest =>
    if cancelled then []
    else [.lastHistoryUpdate latest.time, .prependHist (stateToMapState latest),
          .detailState (.success latest)]
  | none => []

/-! Geodesy: the spherical forward projection inlined in the animation loop
of `AircraftMarkerLayer.tsx` (lines 169–176), over the reals. -/

/-- JavaScript `Math.atan2(y, x)` over the reals (signed zeros do not exist
here; `Math.atan2(0, +0) = 0` is matched by the final branch). -/
noncomputable def atan2 (y x : ℝ) : ℝ :=
  if 0 < x then Real.arctan (y / x)
  else if x < 0 then
    (if 0 ≤ y then Real.arctan (y / x) + Real.pi else Real.arctan (y / x) - Real.pi)
  else
    (if 0 < y then Real.pi / 2 else if y < 0 then -(Real.pi / 2) else 0)

/-- Forward projection of the animation loop: degrees and meters in, degrees
out, on a sphere of radius `R = 6371000` m.  Mirrors lines 169–176 of
`AircraftMarkerLayer.tsx` exactly (`lat2` via `asin`, `lon2` via `atan2`). -/
noncomputable def project (lat lon heading distance : ℝ) : ℝ × ℝ :=
  let R : ℝ := 6371000
  let headingRad := heading * Real.pi / 180
  let lat1 := lat * Real.pi / 180
  let lon1 := lon * Real.pi / 180
  let lat2 := Real.arcsin (Real.sin lat1 * Real.cos (distance / R) +
    Real.cos lat1 * Real.sin (distance / R) * Real.cos headingRad)
  let lon2 := lon1 + atan2 (Real.sin headingRad * Real.sin (distance / R) * Real.cos lat1)
    (Real.cos (distance / R) - Real.sin lat1 * Real.sin lat2)
  (lat2 * 180 / Real.pi, lon2 * 180 / Real.pi)

/-- JavaScript truthiness of an optional number: `null`/`undefined` and `0`
are falsy (`!a.velocity`, `!a.heading` in the animation loop). -/
def jsFalsy (value : Option ℚ) : Bool :=
  match value with
  | none => true
  | some v => v == 0

/-- Displayed coordinate of one marker after an animation frame
(`AircraftMarkerLayer.tsx` lines 163–183): when `!a.velocity || !a.heading`
the marker is skipped and keeps its built coordinate (snapshot position plus
the cosmetic offset, line 125); otherwise it is moved to the forward
projection by `velocity * dt` meters along `heading`, plus the offset. -/
noncomputable def markerFramePos (a : MapState) (offset : ℚ × ℚ) (dt : ℝ) : ℝ × ℝ :=
  if jsFalsy a.velocity || jsFalsy a.heading then
    ((a.position.1 : ℝ) + (offset.1 : ℝ), (a.position.2 : ℝ) + (offset.2 : ℝ))
  else
    let velocity := ((a.velocity.getD 0 : ℚ) : ℝ)
    let heading := ((a.heading.getD 0 : ℚ) : ℝ)
    let p := project (a.position.1 : ℝ) (a.position.2 : ℝ) heading (velocity * dt)
    (p.1 + (offset.1 : ℝ), p.2 + (offset.2 : ℝ))

/-- Helper: `atan2 0 x = 0` whenever `x ≥ 0` (the only case the zero-distance
projection hits). -/
lemma atan2_zero_of_nonneg (x : ℝ) (hx : 0 ≤ x) : atan2 0 x = 0 := by
  unfold atan2
  rcases eq_or_lt_of_le hx with h | h
  · simp [← h]
  · simp [h, not_lt.mpr (le_of_lt h), zero_div, Real.arctan_zero]

/-- C2: for every latitude `lat` (in the valid range `[-90, 90]`), longitude
`lon` and heading `θ`, the forward projection with distance 0 returns exactly
`(lat, lon)`:  `project(lat, lon, θ, 0) == (lat, lon)`. -/
theorem project_zero_distance (lat lon heading : ℝ)
    (h1 : -90 ≤ lat) (h2 : lat ≤ 90) :
    project lat lon heading 0 = (lat, lon) := by
  have hπ : (0:ℝ) < Real.pi := Real.pi_pos
  have hb1 : -(Real.pi / 2) ≤ lat * Real.pi / 180 := by nlinarith
  have hb2 : lat * Real.pi / 180 ≤ Real.pi / 2 := by nlinarith
  simp only [project, zero_div, Real.cos_zero, Real.sin_zero, mul_zero, zero_mul,
    mul_one, add_zero, zero_add]
  rw [Real.arcsin_sin hb1 hb2]
  have hx : (0:ℝ) ≤ 1 - Real.sin (lat * Real.pi / 180) * Real.sin (lat * Real.pi / 180) := by
    nlinarith [Real.sin_sq_add_cos_sq (lat * Real.pi / 180),
      sq_nonneg (Real.cos (lat * Real.pi / 180))]
  rw [atan2_zero_of_nonneg _ hx, add_zero, Prod.mk.injEq]
  constructor
  · field_simp
  · field_simp

/-- Witness for C2 at `lat = 52`, `lon = 4`, `θ = 37`. -/
theorem project_zero_distance_witness :
    ((-90:ℝ) ≤ 52 ∧ (52:ℝ) ≤ 90) ∧ project 52 4 37 0 = (52, 4) :=
  ⟨by norm_num, project_zero_distance 52 4 37 (by norm_num) (by norm_num)⟩

/-- Helper: projecting due north (heading 0) by 2500 m from latitude 52
strictly increases the latitude, so the projection moves the point. -/
lemma project_due_north_lat_pos : 52 < (project 52 4 0 (250 * 10)).1 := by
  have hπ : (0:ℝ) < Real.pi := Real.pi_pos
  have hπ2 : 3.141592 < Real.pi := Real.pi_gt_d6
  simp only [project]
  rw [show (0:ℝ) * Real.pi / 180 = 0 by ring, Real.cos_zero, mul_one, ← Real.sin_add]
  have lb : -(Real.pi / 2) ≤ 52 * Real.pi / 180 + 250 * 10 / 6371000 := by linarith
  have ub : 52 * Real.pi / 180 + 250 * 10 / 6371000 ≤ Real.pi / 2 := by linarith
  rw [Real.arcsin_sin lb ub, lt_div_iff₀ hπ]
  linarith

/-- Snapshot with non-null kinematics but heading 0 (due north): `!a.heading`
is true in JavaScript, so the animation loop skips it. -/
def zeroHeadingSnapshot : MapState :=
  { time := 0
    callsign := "TEST123"
    position := (52, 4)
    heading := some 0
    model := none
    altitude := none
    velocity := some 250 }

/-- Counterexample to C1 as stated: this snapshot has non-null `groundSpeed`
(250 m/s) and non-null `heading` (0°, due north), yet after a frame with
`dt = 10` s its displayed position is the unchanged snapshot position, not
the forward projection by 2500 m (which lies strictly north). -/
theorem extrapolation_null_guard_counterexample :
    (zeroHeadingSnapshot.velocity ≠ none ∧ zeroHeadingSnapshot.heading ≠ none) ∧
    markerFramePos zeroHeadingSnapshot (0, 0) 10 ≠ project 52 4 0 (250 * 10) := by
  refine ⟨⟨by simp [zeroHeadingSnapshot], by simp [zeroHeadingSnapshot]⟩, ?_⟩
  have hstay : markerFramePos zeroHeadingSnapshot (0, 0) 10 = ((52:ℝ), 4) := by
    norm_num [markerFramePos, zeroHeadingSnapshot, jsFalsy]
  rw [hstay]
  intro hEq
  have h1 := congrArg Prod.fst hEq
  simp only [Prod.fst] at h1
  have h2 := project_due_north_lat_pos
  rw [← h1] at h2
  exact lt_irrefl _ h2

/-- C1 (amended): per animation frame, a snapshot whose `groundSpeed` and
`heading` are non-null **and nonzero** is displayed at the spherical forward
projection of the snapshot position by `groundSpeed * dt` along the heading;
a snapshot whose `groundSpeed` or `heading` is null **or zero** (JavaScript
falsiness, `!a.velocity || !a.heading`) stays at its snapshot position. -/
theorem frame_extrapolation (a : MapState) (dt : ℝ) :
    (∀ v h : ℚ, a.velocity = some v → a.heading = some h → v ≠ 0 → h ≠ 0 →
      markerFramePos a (0, 0) dt =
        project (a.position.1 : ℝ) (a.position.2 : ℝ) (h : ℝ) ((v : ℝ) * dt)) ∧
    ((jsFalsy a.velocity = true ∨ jsFalsy a.heading = true) →
      markerFramePos a (0, 0) dt = ((a.position.1 : ℝ), (a.position.2 : ℝ))) := by
  constructor
  · intro v h hv hh hv0 hh0
    have hguard : (jsFalsy (some v) || jsFalsy (some h)) = false := by
      simp [jsFalsy, hv0, hh0]
    simp only [markerFramePos, hv, hh, hguard, Bool.false_eq_true, if_false,
      Option.getD_some]
    push_cast
    simp [Prod.ext_iff]
  · intro hor
    have hguard : (jsFalsy a.velocity || jsFalsy a.heading) = true := by
      rcases hor with h | h <;> simp [h]
    simp only [markerFramePos, hguard, if_true]
    push_cast
    simp [Prod.ext_iff]

/-- Snapshot at (52, 4) heading east at 250 m/s, used as the C1 witness. -/
def eastboundSnapshot : MapState :=
  { time := 0
    callsign := "KLM1"
    position := (52, 4)
    heading := some 90
    model := none
    altitude := none
    velocity := some 250 }

/-- Witness for C1 (amended) at the eastbound snapshot with `dt = 10` s. -/
theorem frame_extrapolation_witness :
    markerFramePos eastboundSnapshot (0, 0) 10 = project 52 4 90 (250 * 10) := by
  have h := (frame_extrapolation eastboundSnapshot 10).1 250 90 rfl rfl
    (by norm_num) (by norm_num)
  simpa [eastboundSnapshot] using h

/-- History point with a given timestamp, used for concrete segmentation
examples (position and altitude derived from the time for visibility). -/
def histPoint (t : ℚ) : MapState :=
  { time := t
    callsign := "SEL1"
    position := (t, t)
    heading := none
    model := none
    altitude := some t
    velocity := none }

/-- Counterexample to C3 as stated: adjacent history points 190 s apart —
strictly more than the claimed `GAP_THRESHOLD` of 180 s — still yield a
`continuous` (`normal`) segment, because the current segmenter compares
`dt < 200`, not `dt <= 180`. -/
theorem gap_threshold_counterexample :
    ((190:ℚ) - 0 > 180) ∧
    (trackSegments [histPoint 190, histPoint 0]).map TrackSegment.type =
      [SegmentType.normal] := by
  constructor
  · norm_num
  · norm_num [trackSegments, mkTrackSegment, histPoint]

/-- C3 (amended): the segmenter assigns kind `continuous` (`normal`) exactly
when `dt < 200` s (strict comparison against 200, not `dt <= 180`) and `gap`
exactly when `dt >= 200` s; for history times `[0, 60, 70, 400]` it produces
the segments 0–60 continuous, 60–70 continuous and 70–400 gap. -/
theorem gap_threshold_segmentation :
    (∀ state1 state2 : MapState,
      ((mkTrackSegment state1 state2).type = SegmentType.normal ↔
        state1.time - state2.time < 200) ∧
      ((mkTrackSegment state1 state2).type = SegmentType.gap ↔
        200 ≤ state1.time - state2.time)) ∧
    (trackSegments [histPoint 400, histPoint 70, histPoint 60, histPoint 0]).map
        (fun seg => (seg.startTime, seg.endTime, seg.type)) =
      [(70, 400, SegmentType.gap), (60, 70, SegmentType.normal),
       (0, 60, SegmentType.normal)] := by
  constructor
  · intro state1 state2
    by_cases hdt : state1.time - state2.time < 200
    · simp [mkTrackSegment, hdt, not_le.mpr hdt]
    · simp [mkTrackSegment, hdt, not_lt.mp hdt]
  · norm_num [trackSegments, mkTrackSegment, histPoint]

/-- Time of the newest (first) point of a most-recent-first history. -/
def newestTime : List MapState → ℚ
  | [] => 0
  | point :: _ => point.time

/-- Time of the oldest (last) point of a most-recent-first history. -/
def oldestTime : List MapState → ℚ
  | [] => 0
  | [point] => point.time
  | _ :: point :: rest => oldestTime (point :: rest)

/-- Helper: the segmenter emits one segment per adjacent pair. -/
lemma trackSegments_length (history : List MapState) :
    (trackSegments history).length = history.length - 1 := by
  induction history with
  | nil => rfl
  | cons p rest ih =>
    cases rest with
    | nil => rfl
    | cons q rest2 =>
      simp only [trackSegments, List.length_cons] at ih ⊢
      omega

/-- Helper: consecutive segments share an endpoint — each segment's start
time equals the end time of the segment after it (the next older one). -/
lemma trackSegments_chain (history : List MapState) :
    List.Chain' (fun seg1 seg2 => seg1.startTime = seg2.endTime)
      (trackSegments history) := by
  induction history with
  | nil => simp [trackSegments]
  | cons p rest ih =>
    cases rest with
    | nil => simp [trackSegments]
    | cons q rest2 =>
      cases rest2 with
      | nil => simp [trackSegments]
      | cons r rest3 =>
        refine List.chain'_cons'.mpr ⟨?_, ih⟩
        intro seg hseg
        simp only [trackSegments, List.head?_cons, Option.mem_def,
          Option.some.injEq] at hseg
        rw [← hseg]
        rfl

/-- Helper: the first segment ends at the newest history time. -/
lemma trackSegments_head (history : List MapState) (h : 2 ≤ history.length) :
    (trackSegments history).head?.map TrackSegment.endTime =
      history.head?.map MapState.time := by
  match history with
  | p :: q :: rest => rfl

/-- Helper: the last segment starts at the oldest history time. -/
lemma trackSegments_getLast (history : List MapState) (h : 2 ≤ history.length) :
    (trackSegments history).getLast?.map TrackSegment.startTime =
      history.getLast?.map MapState.time := by
  match history with
  | p :: q :: rest =>
    induction rest generalizing p q with
    | nil => rfl
    | cons r rest2 ih =>
      have step : trackSegments (p :: q :: r :: rest2) =
          mkTrackSegment p q :: trackSegments (q :: r :: rest2) := rfl
      rw [step, List.getLast?_cons_cons,
        show (trackSegments (q :: r :: rest2)) =
          mkTrackSegment q r :: trackSegments (r :: rest2) from rfl]
      rw [← show (trackSegments (q :: r :: rest2)) =
          mkTrackSegment q r :: trackSegments (r :: rest2) from rfl]
      exact ih q r (by simp)

/-- Helper: every instant between the oldest and the newest history time is
inside the time span of some emitted segment. -/
lemma trackSegments_cover (p q : MapState) (rest : List MapState) (x : ℚ)
    (hlo : oldestTime (p :: q :: rest) ≤ x) (hhi : x ≤ p.time) :
    ∃ seg ∈ trackSegments (p :: q :: rest),
      seg.startTime ≤ x ∧ x ≤ seg.endTime := by
  induction rest generalizing p q with
  | nil =>
    refine ⟨mkTrackSegment p q, by simp [trackSegments], ?_, ?_⟩
    · simpa [oldestTime, mkTrackSegment] using hlo
    · simpa [mkTrackSegment] using hhi
  | cons r rest2 ih =>
    by_cases hx : q.time ≤ x
    · exact ⟨mkTrackSegment p q, by simp [trackSegments],
        le_of_eq_of_le rfl hx, hhi⟩
    · have hlo2 : oldestTime (q :: r :: rest2) ≤ x := hlo
      obtain ⟨seg, hmem, hs, he⟩ := ih q r hlo2 (le_of_not_le hx)
      exact ⟨seg, List.mem_cons_of_mem _ hmem, hs, he⟩

/-- Full segment-count and tiling invariant of the segmenter, for a history
of length at least 2: exactly `N - 1` segments; consecutive segments abut
exactly (the start time of each equals the end time of the next older one,
so the concatenated spans have no overlap); the first segment ends at the
newest point's time and the last starts at the oldest point's time; and every
instant of `[oldest, newest]` lies within some segment's span. -/
def segInv (history : List MapState) : Prop :=
  (trackSegments history).length = history.length - 1 ∧
  List.Chain' (fun seg1 seg2 => seg1.startTime = seg2.endTime)
    (trackSegments history) ∧
  (trackSegments history).head?.map TrackSegment.endTime =
    history.head?.map MapState.time ∧
  (trackSegments history).getLast?.map TrackSegment.startTime =
    history.getLast?.map MapState.time ∧
  ∀ x : ℚ, oldestTime history ≤ x → x ≤ newestTime history →
    ∃ seg ∈ trackSegments history, seg.startTime ≤ x ∧ x ≤ seg.endTime

/-- C4: for every history list of length `N ≥ 2` the segmenter produces
exactly `N − 1` segments whose time spans tile `[oldest, newest]` without
overlap (consecutive segments share exactly their common endpoint). -/
theorem segmenter_count_tiling (history : List MapState)
    (h : 2 ≤ history.length) : segInv history := by
  refine ⟨trackSegments_length history, trackSegments_chain history,
    trackSegments_head history h, trackSegments_getLast history h, ?_⟩
  match history with
  | p :: q :: rest =>
    intro x hlo hhi
    exact trackSegments_cover p q rest x hlo hhi

/-- Witness for C4 on the four-point history `[400, 70, 60, 0]`. -/
theorem segmenter_count_tiling_witness :
    segInv [histPoint 400, histPoint 70, histPoint 60, histPoint 0] :=
  segmenter_count_tiling [histPoint 400, histPoint 70, histPoint 60, histPoint 0]
    (by decide)

/-- A populated demonstration store used to instantiate store-level claims. -/
def demoStore : MapStore Unit Unit Unit Unit Unit :=
  { selected := some "ABC123"
    lastHistoryUpdate := 0
    history := [histPoint 100, histPoint 50]
    details :=
      { state := .success ()
        photos := .loading
        aircraft := .error "x"
        airport := { departure := .idle, arrival := .success () }
        airline := .idle }
    animatedPosition := (52, 4)
    mapStates := [histPoint 100]
    lastMapUpdate := 0
    mapStyle := .openStreetMap
    sidebarOpen := true
    animationZoomLimit := 9 }

/-- C5: inserting a history point whose timestamp already occurs in the
history leaves the store (in particular the history: length and contents)
unchanged; when no existing point shares the timestamp, the point is
prepended. -/
theorem prependHistory_dedup (point : MapState) (s : MapStore St Ph Ac Ap Al) :
    ((∃ q ∈ s.history, q.time = point.time) → prependHistory point s = s) ∧
    ((∀ q ∈ s.history, q.time ≠ point.time) →
      (prependHistory point s).history = point :: s.history) := by
  constructor
  · rintro ⟨q, hq, ht⟩
    have hany : s.history.any (fun state => state.time == point.time) = true := by
      rw [List.any_eq_true]
      exact ⟨q, hq, by simp [ht]⟩
    simp [prependHistory, hany]
  · intro hall
    have hany : s.history.any (fun state => state.time == point.time) = false := by
      rw [List.any_eq_false]
      intro q hq
      simp [hall q hq]
    simp [prependHistory, hany]

/-- Witness for C5 on the demonstration store: time 100 is already present
(no change at all), time 25 is fresh (prepended). -/
theorem prependHistory_dedup_witness :
    prependHistory (histPoint 100) demoStore = demoStore ∧
    (prependHistory (histPoint 25) demoStore).history =
      histPoint 25 :: demoStore.history := by
  constructor
  · exact (prependHistory_dedup (histPoint 100) demoStore).1
      ⟨histPoint 100, by simp [demoStore], rfl⟩
  · refine (prependHistory_dedup (histPoint 25) demoStore).2 ?_
    intro q hq
    have hq2 : q = histPoint 100 ∨ q = histPoint 50 := by
      simpa [demoStore] using hq
    rcases hq2 with h | h <;> rw [h] <;> norm_num [histPoint]

/-- Reset law of the selection effect: the effect body begins with the
`resetSelected` mutation, every fetch request is issued strictly after it,
and `resetSelected` empties the history, zeroes the animated position and
returns every detail `Loadable` slot to `idle`. -/
def resetLaw (selected : Option String) (s : MapStore St Ph Ac Ap Al) : Prop :=
  (selectionEffect selected : List (SelStep St Ph Ac Ap Al)).head? =
    some (.act .reset) ∧
  (∀ (i : ℕ) (callsign : String),
    (selectionEffect selected : List (SelStep St Ph Ac Ap Al))[i]? =
      some (.fetch callsign) → 0 < i) ∧
  applyAct .reset s = resetSelected s ∧
  (resetSelected s).history = [] ∧
  (resetSelected s).animatedPosition = (0, 0) ∧
  (resetSelected s).details.state = .idle ∧
  (resetSelected s).details.aircraft = .idle ∧
  (resetSelected s).details.airline = .idle ∧
  (resetSelected s).details.airport.departure = .idle ∧
  (resetSelected s).details.airport.arrival = .idle ∧
  (resetSelected s).details.photos = .idle

/-- C6: any selection change (selecting a callsign or deselecting) first
performs the reset mutation — emptying `history`, `animatedPosition` and all
six detail slots — and only afterwards issues any fetch. -/
theorem selection_resets_before_fetch (selected : Option String)
    (s : MapStore St Ph Ac Ap Al) : resetLaw selected s := by
  refine ⟨?_, ?_, rfl, rfl, rfl, rfl, rfl, rfl, rfl, rfl, rfl⟩
  · cases selected <;> rfl
  · intro i callsign h
    cases selected with
    | none =>
      cases i with
      | zero => simp [selectionEffect] at h
      | succ n => simp [selectionEffect] at h
    | some c =>
      cases i with
      | zero => simp [selectionEffect] at h
      | succ n => omega

/-- Witness for C6: selecting "KLM1" on the populated demonstration store. -/
theorem selection_resets_before_fetch_witness :
    resetLaw (some "KLM1") demoStore :=
  selection_resets_before_fetch (some "KLM1") demoStore

/-- Counterexample to C7 as stated: a successful worker reply carrying an
empty aircraft list makes the handler throw on `aircraftStates[0].time`
before any write, so the batch is **not** replaced by the response. -/
theorem area_fetch_empty_counterexample :
    handleFetch (WorkerMsg.dataMsg (some [])) demoStore = none := rfl

/-- C7 (amended): an error reply from the worker performs no store write
(the prior batch is untouched); a successful reply with a non-empty list
replaces the batch wholesale (after stamping `lastMapUpdate` from element
0); a successful null payload replaces the batch with the empty list; and a
successful reply with an empty list crashes the handler before any write. -/
theorem area_fetch_atomicity (s : MapStore St Ph Ac Ap Al) :
    (∀ e, handleFetch (WorkerMsg.errorMsg e) s = some s) ∧
    (∀ state0 rest, handleFetch (WorkerMsg.dataMsg (some (state0 :: rest))) s =
      some (setMapStates (state0 :: rest) (setLastMapUpdateString state0.time s))) ∧
    handleFetch (WorkerMsg.dataMsg none) s = some (setMapStates [] s) ∧
    handleFetch (WorkerMsg.dataMsg (some [])) s = none :=
  ⟨fun _ => rfl, fun _ _ => rfl, rfl, rfl⟩

/-- C10: on a successful reply with an empty aircraft list the handler
evaluates element 0 with no emptiness guard and aborts (no batch
replacement); the success branch completes for every non-empty list. -/
theorem area_fetch_empty_unsafe (s : MapStore St Ph Ac Ap Al) :
    handleFetch (WorkerMsg.dataMsg (some [])) s = none ∧
    (∀ state0 rest,
      (handleFetch (WorkerMsg.dataMsg (some (state0 :: rest))) s).isSome = true) :=
  ⟨rfl, fun _ _ => rfl⟩

/-- C8: every asynchronous continuation of the detail and history fetches
checks the epoch's cancellation flag when its response arrives; with the
flag set (the selection changed or was cleared), none of them performs any
store write. -/
theorem stale_response_guard :
    (∀ (history : List MapState) (latest : State),
      @onInitialData Ph Ac Ap Al true history latest = some []) ∧
    (∀ (registration : Option String) (result : Option Ac),
      @onAircraftLookup St Ph Ac Ap Al true registration result = []) ∧
    (∀ (icao : Option String) (result : Option Al),
      @onAirlineLookup St Ph Ac Ap Al true icao result = []) ∧
    (∀ (iata : Option String) (result : Option Ap),
      @onArrivalLookup St Ph Ac Ap Al true iata result = []) ∧
    (∀ (iata : Option String) (result : Option Ap),
      @onDepartureLookup St Ph Ac Ap Al true iata result = []) ∧
    (∀ (registration : Option String) (result : Option Ph),
      @onPhotosLookup St Ph Ac Ap Al true registration result = []) ∧
    onInitialError true = ([] : List (StoreAct St Ph Ac Ap Al)) ∧
    (∀ result, @onLatestState Ph Ac Ap Al true result = []) := by
  refine ⟨fun history latest => rfl, ?_, ?_, ?_, ?_, ?_, rfl, ?_⟩
  · intro registration result
    simp [onAircraftLookup]
  · intro icao result
    simp [onAirlineLookup]
  · intro iata result
    simp [onArrivalLookup]
  · intro iata result
    simp [onDepartureLookup]
  · intro registration result
    simp [onPhotosLookup]
  · intro result
    cases result <;> simp [onLatestState]

/-- C9: each detail setter writes only its own `Loadable` slot — all five
sibling slots and the selection are untouched, for every store state and
every written value (success or error alike). -/
theorem detail_slot_isolation (s : MapStore St Ph Ac Ap Al)
    (lState : Loadable St) (lAircraft : Loadable Ac) (lAirline : Loadable Al)
    (lDeparture : Loadable Ap) (lArrival : Loadable Ap) (lPhotos : Loadable Ph) :
    ((setDetailState lState s).details.state = lState ∧
      (setDetailState lState s).details.aircraft = s.details.aircraft ∧
      (setDetailState lState s).details.airline = s.details.airline ∧
      (setDetailState lState s).details.airport.departure = s.details.airport.departure ∧
      (setDetailState lState s).details.airport.arrival = s.details.airport.arrival ∧
      (setDetailState lState s).details.photos = s.details.photos ∧
      (setDetailState lState s).selected = s.selected) ∧
    ((setDetailAircraft lAircraft s).details.aircraft = lAircraft ∧
      (setDetailAircraft lAircraft s).details.state = s.details.state ∧
      (setDetailAircraft lAircraft s).details.airline = s.details.airline ∧
      (setDetailAircraft lAircraft s).details.airport.departure = s.details.airport.departure ∧
      (setDetailAircraft lAircraft s).details.airport.arrival = s.details.airport.arrival ∧
      (setDetailAircraft lAircraft s).details.photos = s.details.photos ∧
      (setDetailAircraft lAircraft s).selected = s.selected) ∧
    ((setDetailAirline lAirline s).details.airline = lAirline ∧
      (setDetailAirline lAirline s).details.state = s.details.state ∧
      (setDetailAirline lAirline s).details.aircraft = s.details.aircraft ∧
      (setDetailAirline lAirline s).details.airport.departure = s.details.airport.departure ∧
      (setDetailAirline lAirline s).details.airport.arrival = s.details.airport.arrival ∧
      (setDetailAirline lAirline s).details.photos = s.details.photos ∧
      (setDetailAirline lAirline s).selected = s.selected) ∧
    ((setDetailDeparture lDeparture s).details.airport.departure = lDeparture ∧
      (setDetailDeparture lDeparture s).details.state = s.details.state ∧
      (setDetailDeparture lDeparture s).details.aircraft = s.details.aircraft ∧
      (setDetailDeparture lDeparture s).details.airline = s.details.airline ∧
      (setDetailDeparture lDeparture s).details.airport.arrival = s.details.airport.arrival ∧
      (setDetailDeparture lDeparture s).details.photos = s.details.photos ∧
      (setDetailDeparture lDeparture s).selected = s.selected) ∧
    ((setDetailArrival lArrival s).details.airport.arrival = lArrival ∧
      (setDetailArrival lArrival s).details.state = s.details.state ∧
      (setDetailArrival lArrival s).details.aircraft = s.details.aircraft ∧
      (setDetailArrival lArrival s).details.airline = s.details.airline ∧
      (setDetailArrival lArrival s).details.airport.departure = s.details.airport.departure ∧
      (setDetailArrival lArrival s).details.photos = s.details.photos ∧
      (setDetailArrival lArrival s).selected = s.selected) ∧
    ((setDetailPhotos lPhotos s).details.photos = lPhotos ∧
      (setDetailPhotos lPhotos s).details.state = s.details.state ∧
      (setDetailPhotos lPhotos s).details.aircraft = s.details.aircraft ∧
      (setDetailPhotos lPhotos s).details.airline = s.details.airline ∧
      (setDetailPhotos lPhotos s).details.airport.departure = s.details.airport.departure ∧
      (setDetailPhotos lPhotos s).details.airport.arrival = s.details.airport.arrival ∧
      (setDetailPhotos lPhotos s).selected = s.selected) := by
  and_intros <;> rfl

end SkyTracker
